import Mathlib

/-!
Verification of the GenderClassifier app (src/app.py).

The app records a voice sample, estimates its mean fundamental frequency with
librosa.yin + np.nanmean inside a try/except, and classifies the speaker by
comparing the mean pitch to a slider-configured threshold.

Floating-point values are embedded as `PFloat`: either NaN or a real number
modelled as a rational.  The librosa library itself is not part of the
repository; where a definition depends on its behaviour, the definition is
modelled from the spec and its doc comment says so.
-/

/- ### Data model -/

/-- A Python floating-point value as this app observes it: either NaN
(the numpy/librosa "undetectable" marker) or a real number, modelled as a
rational. -/
inductive PFloat
  | nan
  | real (val : ℚ)
  deriving DecidableEq

/-- The decoded audio returned by `sf.read` (src/app.py line 99): a mono file
gives a one-dimensional sample list, a stereo file a (frames × 2) array,
i.e. a list of per-frame channel pairs. -/
inductive AudioData
  | mono (samples : List ℚ)
  | stereo (samples : List (ℚ × ℚ))
  deriving DecidableEq

/-- The error conditions the guarded yin call can raise: invalid parameters
(fmin ≥ fmax or non-positive sample rate) or a buffer too short to form one
analysis frame. -/
inductive YinError
  | invalidParameter
  | bufferTooShort
  deriving DecidableEq

/-- The caller-visible label of one classification request. -/
inductive Label
  | male
  | female
  | undetermined
  deriving DecidableEq

/-- What the code after the try/except can observe: either a surfaced error or
a mean-pitch value.  The except clause (line 105) never re-raises, so the
embedding of the guarded block only ever builds the `result` constructor. -/
inductive AppOutcome
  | surfaced (e : YinError)
  | result (mp : PFloat)
  deriving DecidableEq

/-- The Streamlit session state touched by the app: the stored threshold
("threshold") and the recorded sample ("gender_sample"). -/
structure SessionState where
  threshold : Option ℚ
  genderSample : Option (List ℚ)
  deriving DecidableEq

/- ### Mean over non-NaN entries -/

/-- The entries of a pitch track that are real numbers (the non-NaN ones). -/
def realEntries (xs : List PFloat) : List ℚ :=
  xs.filterMap fun x =>
    match x with
    | .nan => none
    | .real q => some q

/-- Embedding of `np.nanmean(f0)` (src/app.py line 104): the arithmetic mean
over the non-NaN entries of the pitch track; NaN when there is no such entry
(numpy warns and returns NaN for an all-NaN or empty input). -/
def nanmean (xs : List PFloat) : PFloat :=
  if realEntries xs = [] then PFloat.nan
  else PFloat.real ((realEntries xs).sum / (realEntries xs).length)

/- ### Pitch estimation (librosa.yin, modelled from the spec) -/

/-- The analysis frame length in samples: librosa.yin's default frame_length,
the spec's "analysis frame". -/
def frameLength : ℕ := 2048

/-- The hop between consecutive analysis frames: librosa.yin's default
hop_length (a quarter frame). -/
def hopLength : ℕ := 512

/-- The overlapping analysis frames of a mono buffer: frame i is the
frameLength-sample window starting at sample i·hopLength. -/
def frames (xs : List ℚ) : List (List ℚ) :=
  (List.range (1 + (xs.length - frameLength) / hopLength)).map
    fun i => (xs.drop (i * hopLength)).take frameLength

/-- Modelled from the spec: the YIN difference function of one frame,
d(tau) = sum over j of (x(j) - x(j+tau))^2. -/
def diffFn (frame : List ℚ) (tau : ℕ) : ℚ :=
  ((List.range (frame.length - tau)).map
    fun j => (frame.getD j 0 - frame.getD (j + tau) 0) ^ 2).sum

/-- Modelled from the spec: the cumulative mean normalized difference,
d(tau)·tau divided by the sum of d(1)..d(tau); 1 when that sum is zero
(no dip can be detected). -/
def cmndf (frame : List ℚ) (tau : ℕ) : ℚ :=
  let denom := ((List.range tau).map fun k => diffFn frame (k + 1)).sum
  if denom = 0 then 1 else diffFn frame tau * tau / denom

/-- Modelled from the spec: one frame's YIN estimate.  A frame below the
silence floor (all samples zero) is marked NaN rather than guessed; otherwise
the candidate periods run over frequencies in [fmin, fmax], the first period
whose normalized difference is below the aperiodicity threshold 1/10 is
selected, falling back to the global minimum, and the chosen period is
converted to a frequency sr/tau. -/
def yinFrame (fmin fmax sr : ℚ) (frame : List ℚ) : PFloat :=
  if frame.all fun x => decide (x = 0) then PFloat.nan
  else
    let tauMin := max 1 (Int.toNat ⌈sr / fmax⌉)
    let tauMax := Int.toNat ⌊sr / fmin⌋
    let candidates := (List.range (tauMax + 1 - tauMin)).map fun i => tauMin + i
    match candidates.find? fun tau => decide (cmndf frame tau < 1 / 10) with
    | some tau => PFloat.real (sr / tau)
    | none =>
      match candidates with
      | [] => PFloat.nan
      | t0 :: rest =>
        PFloat.real (sr / (rest.foldl
          (fun best tau => if cmndf frame tau < cmndf frame best then tau else best) t0))

/-- Modelled from the spec: librosa.yin on a mono buffer.  fmin ≥ fmax or a
non-positive sample rate is an InvalidParameter error; a buffer shorter than
one analysis frame cannot be framed and errors inside the library; otherwise
every analysis frame gets a YIN estimate. -/
def yinMono (fmin fmax sr : ℚ) (xs : List ℚ) : Except YinError (List PFloat) :=
  if fmax ≤ fmin ∨ sr ≤ 0 then Except.error YinError.invalidParameter
  else if xs.length < frameLength then Except.error YinError.bufferTooShort
  else Except.ok ((frames xs).map (yinFrame fmin fmax sr))

/-- Embedding of the dataflow from line 99 to line 103 of src/app.py: the
`data` array returned by `sf.read` is passed to `librosa.yin` with no
transformation (in particular, no downmix) in between. -/
def dataPassedToYin (data : AudioData) : AudioData := data

/-- The downmix the spec prescribes for stereo input: average the two
channels of every frame.  Stated from the spec's words, for comparison with
`dataPassedToYin`. -/
def downmixAvg (ps : List (ℚ × ℚ)) : List ℚ :=
  ps.map fun p => (p.1 + p.2) / 2

/-- Modelled from the spec: librosa.yin on the array the app passes it.
Parameters are validated first.  librosa takes the trailing axis as time, so
a stereo (frames × 2) array from sf.read presents length-2 signals, each
shorter than one analysis frame, which is the short-buffer error condition. -/
def yin (fmin fmax sr : ℚ) : AudioData → Except YinError (List PFloat)
  | AudioData.mono xs => yinMono fmin fmax sr xs
  | AudioData.stereo _ =>
    if fmax ≤ fmin ∨ sr ≤ 0 then Except.error YinError.invalidParameter
    else Except.error YinError.bufferTooShort

/-- Embedding of the try/except of src/app.py lines 102-106: any error raised
by the yin call is caught and replaced by `mean_pitch = float("nan")`; a
successful pitch track is reduced with `np.nanmean`. -/
def guardedMeanPitch (outcome : Except YinError (List PFloat)) : PFloat :=
  match outcome with
  | Except.ok f0 => nanmean f0
  | Except.error _ => PFloat.nan

/-- The estimate_mean_pitch contract of the spec as the code realises it: run
yin on the data actually passed (no downmix) and guard the whole computation. -/
def estimateMeanPitch (fmin fmax sr : ℚ) (data : AudioData) : PFloat :=
  guardedMeanPitch (yin fmin fmax sr (dataPassedToYin data))

/-- What the caller of the guarded block observes (src/app.py lines 102-108):
the except clause never re-raises, so the caller always receives a mean-pitch
value and never a surfaced error. -/
def estimateOutcome (fmin fmax sr : ℚ) (data : AudioData) : AppOutcome :=
  AppOutcome.result (estimateMeanPitch fmin fmax sr data)

/-- The app's estimation call (line 103) with its fixed parameters
fmin=50, fmax=500. -/
def appEstimate (sr : ℚ) (data : AudioData) : PFloat :=
  estimateMeanPitch 50 500 sr data

/-- Embedding of src/app.py lines 108-111: a NaN mean pitch shows the
"could not detect pitch" message (the Undetermined outcome); otherwise
`gender = "Female" if mean_pitch > threshold else "Male"`. -/
def classify (meanPitch : PFloat) (threshold : ℚ) : Label :=
  match meanPitch with
  | .nan => Label.undetermined
  | .real q => if threshold < q then Label.female else Label.male

/-- The estimation step as a state transformer over the Streamlit session:
the guarded block (lines 102-106) reads only the locals `data` and `fs` and
writes only the local `mean_pitch`; `st.session_state` is neither read nor
written there. -/
def estimateStep (s : SessionState) (sr : ℚ) (data : AudioData) :
    PFloat × SessionState :=
  (appEstimate sr data, s)

/- ### Threshold sidebar (src/app.py lines 50-59) -/

/-- Embedding of `st.slider` as configured on lines 51-58: min_value=50,
max_value=300, step=1.  When the user has not moved the slider this rerun it
returns the supplied default value; otherwise it returns the selected
position 50 + 1·k, one of the 251 grid positions (k clamped to 250). -/
def sliderValue (default : ℚ) (choice : Option ℕ) : ℚ :=
  match choice with
  | none => default
  | some k => 50 + 1 * ((min k 250 : ℕ) : ℚ)

/-- One rerun of the sidebar (lines 50-59): read the stored threshold with
default 165, show the slider, store its value back.  The returned value is
the `threshold` variable later read at classification time (line 111). -/
def sidebarRun (session : Option ℚ) (choice : Option ℕ) : ℚ :=
  sliderValue (session.getD 165) choice

/-- The stored session threshold after a sequence of reruns (in chronological
order), starting from a fresh session where the "threshold" key is absent. -/
def sessionAfter (cs : List (Option ℕ)) : Option ℚ :=
  cs.foldl (fun s c => some (sidebarRun s c)) none

/- ### Helper lemmas -/

/-- The pitch track has no real entry exactly when every entry is NaN. -/
lemma realEntries_eq_nil_iff (xs : List PFloat) :
    realEntries xs = [] ↔ ∀ x ∈ xs, x = PFloat.nan := by
  unfold realEntries
  rw [List.filterMap_eq_nil_iff]
  constructor
  · intro h x hx
    have hx2 := h x hx
    cases x with
    | nan => rfl
    | real q => simp at hx2
  · intro h x hx
    rw [h x hx]

/-- `nanmean` returns NaN exactly when every entry of the track is NaN. -/
lemma nanmean_eq_nan_iff (xs : List PFloat) :
    nanmean xs = PFloat.nan ↔ ∀ x ∈ xs, x = PFloat.nan := by
  unfold nanmean
  by_cases h : realEntries xs = []
  · rw [if_pos h]
    exact iff_of_true rfl ((realEntries_eq_nil_iff xs).mp h)
  · rw [if_neg h]
    exact iff_of_false (by simp) fun hall => h ((realEntries_eq_nil_iff xs).mpr hall)

/-- When the track has at least one real entry, `nanmean` is the arithmetic
mean over the real entries. -/
lemma nanmean_eq_mean (xs : List PFloat) (h : realEntries xs ≠ []) :
    nanmean xs = PFloat.real ((realEntries xs).sum / (realEntries xs).length) := by
  unfold nanmean
  rw [if_neg h]

/- ### Claims -/

/-- C1: the label is "Female" iff the mean pitch is a real number strictly
greater than the threshold, "Male" iff it is a real number less than or equal
to the threshold (the boundary classifies as Male), and "Undetermined" iff the
mean pitch is NaN; `classify` is total over all `PFloat` inputs by type. -/
theorem classify_label_iff (mp : PFloat) (t : ℚ) :
    (classify mp t = Label.female ↔ ∃ q, mp = PFloat.real q ∧ t < q) ∧
    (classify mp t = Label.male ↔ ∃ q, mp = PFloat.real q ∧ q ≤ t) ∧
    (classify mp t = Label.undetermined ↔ mp = PFloat.nan) := by
  cases mp with
  | nan => simp [classify]
  | real q =>
    by_cases h : t < q
    · refine ⟨?_, ?_, ?_⟩
      · simp only [classify, if_pos h, true_iff]
        exact ⟨q, rfl, h⟩
      · simp only [classify, if_pos h, reduceCtorEq, false_iff]
        rintro ⟨q1, hq1, hle⟩
        cases hq1
        exact absurd hle (not_le.mpr h)
      · simp [classify, if_pos h]
    · refine ⟨?_, ?_, ?_⟩
      · simp only [classify, if_neg h, reduceCtorEq, false_iff]
        rintro ⟨q1, hq1, hlt⟩
        cases hq1
        exact h hlt
      · simp only [classify, if_neg h, true_iff]
        exact ⟨q, rfl, not_lt.mp h⟩
      · simp [classify, if_neg h]

/-- Witness for C1 at the concrete boundary input: a mean pitch exactly equal
to the threshold 165 classifies as Male. -/
theorem classify_label_iff_witness :
    classify (PFloat.real 165) 165 = Label.male :=
  ((classify_label_iff (PFloat.real 165) 165).2.1).mpr ⟨165, rfl, le_refl 165⟩

/-- C2: the reported mean pitch is the arithmetic mean of exactly the real
(non-NaN) entries of the per-frame pitch track, and it is NaN iff every entry
is NaN. -/
theorem nanmean_mean_of_real_entries (xs : List PFloat) :
    (nanmean xs = PFloat.nan ↔ ∀ x ∈ xs, x = PFloat.nan) ∧
    (realEntries xs ≠ [] →
      nanmean xs = PFloat.real ((realEntries xs).sum / (realEntries xs).length)) :=
  ⟨nanmean_eq_nan_iff xs, nanmean_eq_mean xs⟩

/-- Witness for C2 on a concrete track: the mean of the real entries 100 and
200 (with one NaN entry excluded) is 150. -/
theorem nanmean_mean_of_real_entries_witness :
    nanmean [PFloat.real 100, PFloat.nan, PFloat.real 200] = PFloat.real 150 := by
  have h := (nanmean_mean_of_real_entries
      [PFloat.real 100, PFloat.nan, PFloat.real 200]).2 (by simp [realEntries])
  rw [h]
  norm_num [realEntries, List.filterMap_cons, List.filterMap_nil]

/-- C3: no error raised inside the guarded yin computation escapes to the
caller: whenever the yin call errors, the whole request degrades to the NaN /
Undetermined result state, and on success the result is the nanmean of the
per-frame track. -/
theorem estimator_never_crashes (fmin fmax sr t : ℚ) (data : AudioData) :
    (∀ e, yin fmin fmax sr data = Except.error e →
      estimateMeanPitch fmin fmax sr data = PFloat.nan ∧
      classify (estimateMeanPitch fmin fmax sr data) t = Label.undetermined) ∧
    (∀ f0, yin fmin fmax sr data = Except.ok f0 →
      estimateMeanPitch fmin fmax sr data = nanmean f0) := by
  constructor
  · intro e he
    unfold estimateMeanPitch dataPassedToYin
    rw [he]
    exact ⟨rfl, rfl⟩
  · intro f0 hf
    unfold estimateMeanPitch dataPassedToYin
    rw [hf]
    rfl

/-- Witness for C3: the empty buffer makes the yin call error out, and the
caller still receives the NaN result rather than a crash. -/
theorem estimator_never_crashes_witness :
    estimateMeanPitch 50 500 16000 (AudioData.mono []) = PFloat.nan := by
  have he : yin 50 500 16000 (AudioData.mono []) =
      Except.error YinError.bufferTooShort := by
    show yinMono 50 500 16000 [] = Except.error YinError.bufferTooShort
    unfold yinMono
    norm_num [frameLength]
  exact ((estimator_never_crashes 50 500 16000 165 (AudioData.mono [])).1
    YinError.bufferTooShort he).1

/-- C4 counterexample: with fmin = 500 ≥ fmax = 50 the yin call raises
InvalidParameter, but the app surfaces no error to the caller: the outcome is
the graceful NaN result and the classification is Undetermined, contradicting
the claim that a definite error is surfaced. -/
theorem invalid_params_swallowed :
    yin 500 50 16000 (AudioData.mono [0, 0, 0]) =
      Except.error YinError.invalidParameter ∧
    estimateOutcome 500 50 16000 (AudioData.mono [0, 0, 0]) =
      AppOutcome.result PFloat.nan ∧
    classify (estimateMeanPitch 500 50 16000 (AudioData.mono [0, 0, 0])) 165 =
      Label.undetermined := by
  have he : yin 500 50 16000 (AudioData.mono [0, 0, 0]) =
      Except.error YinError.invalidParameter := by
    show yinMono 500 50 16000 [0, 0, 0] = Except.error YinError.invalidParameter
    unfold yinMono
    norm_num
  have hm : estimateMeanPitch 500 50 16000 (AudioData.mono [0, 0, 0]) =
      PFloat.nan := by
    unfold estimateMeanPitch dataPassedToYin
    rw [he]
    rfl
  exact ⟨he, by unfold estimateOutcome; rw [hm], by rw [hm]; rfl⟩

/-- C4 amended: for any buffer content, fmin ≥ fmax or a non-positive sample
rate makes the yin call raise InvalidParameter, but the guarded wrapper
catches it and the caller receives the graceful NaN result instead of a
surfaced error. -/
theorem invalid_params_degrade (fmin fmax sr : ℚ) (data : AudioData)
    (h : fmax ≤ fmin ∨ sr ≤ 0) :
    yin fmin fmax sr data = Except.error YinError.invalidParameter ∧
    estimateOutcome fmin fmax sr data = AppOutcome.result PFloat.nan := by
  have he : yin fmin fmax sr data = Except.error YinError.invalidParameter := by
    cases data with
    | mono xs =>
      show yinMono fmin fmax sr xs = Except.error YinError.invalidParameter
      unfold yinMono
      rw [if_pos h]
    | stereo ps =>
      show (if fmax ≤ fmin ∨ sr ≤ 0 then Except.error YinError.invalidParameter
        else Except.error YinError.bufferTooShort) =
        Except.error YinError.invalidParameter
      rw [if_pos h]
  refine ⟨he, ?_⟩
  unfold estimateOutcome estimateMeanPitch dataPassedToYin
  rw [he]
  rfl

/-- Witness for C4 amended at a concrete non-positive sample rate. -/
theorem invalid_params_degrade_witness :
    yin 50 500 (-1) (AudioData.stereo []) =
      Except.error YinError.invalidParameter ∧
    estimateOutcome 50 500 (-1) (AudioData.stereo []) =
      AppOutcome.result PFloat.nan :=
  invalid_params_degrade 50 500 (-1) (AudioData.stereo []) (Or.inr (by norm_num))

/-- C5: a mono buffer shorter than one analysis frame yields a NaN mean pitch
and no exception reaches the caller: the outcome is always a result value. -/
theorem short_buffer_nan (sr : ℚ) (xs : List ℚ) (h : xs.length < frameLength) :
    appEstimate sr (AudioData.mono xs) = PFloat.nan ∧
    estimateOutcome 50 500 sr (AudioData.mono xs) =
      AppOutcome.result PFloat.nan := by
  have hn : appEstimate sr (AudioData.mono xs) = PFloat.nan := by
    unfold appEstimate estimateMeanPitch dataPassedToYin
    show guardedMeanPitch (yinMono 50 500 sr xs) = PFloat.nan
    unfold yinMono
    by_cases hp : (500:ℚ) ≤ 50 ∨ sr ≤ 0
    · rw [if_pos hp]
      rfl
    · rw [if_neg hp, if_pos h]
      rfl
  exact ⟨hn, congrArg AppOutcome.result hn⟩

/-- Witness for C5: a three-sample buffer is shorter than the 2048-sample
analysis frame and estimates to NaN. -/
theorem short_buffer_nan_witness :
    appEstimate 16000 (AudioData.mono [1, 2, 3]) = PFloat.nan :=
  (short_buffer_nan 16000 [1, 2, 3] (by decide)).1

/-- A frame drawn from an all-zero buffer is itself all-zero, so its YIN
estimate is NaN (the silence floor of the spec). -/
lemma yinFrame_silent (fmin fmax sr : ℚ) (xs : List ℚ) (hall : ∀ x ∈ xs, x = 0)
    (frame : List ℚ) (hf : frame ∈ frames xs) :
    yinFrame fmin fmax sr frame = PFloat.nan := by
  have hz : ∀ x ∈ frame, x = 0 := by
    intro x hx
    obtain ⟨i, hi, rfl⟩ := List.mem_map.mp hf
    exact hall x (List.mem_of_mem_drop (List.mem_of_mem_take hx))
  have hc : (frame.all fun x => decide (x = 0)) = true := by
    rw [List.all_eq_true]
    intro x hx
    exact decide_eq_true (hz x hx)
  unfold yinFrame
  rw [if_pos hc]

/-- C6: a silent buffer (all samples zero) of any length yields a NaN mean
pitch, and the classification outcome is Undetermined, not a numeric label or
a crash. -/
theorem silent_buffer_undetermined (sr t : ℚ) (xs : List ℚ)
    (hall : ∀ x ∈ xs, x = 0) :
    appEstimate sr (AudioData.mono xs) = PFloat.nan ∧
    classify (appEstimate sr (AudioData.mono xs)) t = Label.undetermined := by
  have hn : appEstimate sr (AudioData.mono xs) = PFloat.nan := by
    unfold appEstimate estimateMeanPitch dataPassedToYin
    show guardedMeanPitch (yinMono 50 500 sr xs) = PFloat.nan
    unfold yinMono
    by_cases hp : (500:ℚ) ≤ 50 ∨ sr ≤ 0
    · rw [if_pos hp]
      rfl
    · rw [if_neg hp]
      by_cases hlen : xs.length < frameLength
      · rw [if_pos hlen]
        rfl
      · rw [if_neg hlen]
        show nanmean ((frames xs).map (yinFrame 50 500 sr)) = PFloat.nan
        rw [nanmean_eq_nan_iff]
        intro x hx
        obtain ⟨frame, hf, rfl⟩ := List.mem_map.mp hx
        exact yinFrame_silent 50 500 sr xs hall frame hf
  exact ⟨hn, by rw [hn]; rfl⟩

/-- Witness for C6 on a concrete three-sample silent buffer. -/
theorem silent_buffer_undetermined_witness :
    appEstimate 16000 (AudioData.mono [0, 0, 0]) = PFloat.nan ∧
    classify (appEstimate 16000 (AudioData.mono [0, 0, 0])) 165 =
      Label.undetermined :=
  silent_buffer_undetermined 16000 165 [0, 0, 0] (by simp)

/-- C7 counterexample: the data passed to the yin call is the untouched
stereo array from sf.read, not the channel-averaged mono buffer the claim
requires. -/
theorem stereo_not_downmixed :
    dataPassedToYin (AudioData.stereo [(1, 0)]) ≠
      AudioData.mono (downmixAvg [(1, 0)]) := by
  unfold dataPassedToYin
  simp

/-- C7 amended: the stereo array is passed to the estimator unchanged (no
downmix); librosa then sees length-2 trailing-axis signals, shorter than one
analysis frame, so the guarded call degrades every stereo request to the
NaN / Undetermined outcome instead of processing the data as a mono stream. -/
theorem stereo_passed_unchanged (sr t : ℚ) (ps : List (ℚ × ℚ)) :
    dataPassedToYin (AudioData.stereo ps) = AudioData.stereo ps ∧
    appEstimate sr (AudioData.stereo ps) = PFloat.nan ∧
    classify (appEstimate sr (AudioData.stereo ps)) t = Label.undetermined := by
  have hn : appEstimate sr (AudioData.stereo ps) = PFloat.nan := by
    unfold appEstimate estimateMeanPitch dataPassedToYin
    show guardedMeanPitch (if (500:ℚ) ≤ 50 ∨ sr ≤ 0
      then Except.error YinError.invalidParameter
      else Except.error YinError.bufferTooShort) = PFloat.nan
    by_cases hp : (500:ℚ) ≤ 50 ∨ sr ≤ 0
    · rw [if_pos hp]
      rfl
    · rw [if_neg hp]
      rfl
  exact ⟨rfl, hn, by rw [hn]; rfl⟩

/-- C8: estimation is a pure function of the buffer and parameters: the
result does not depend on the session state, the session state is unchanged
by estimation, and a second invocation on the same inputs yields the
identical result. -/
theorem estimate_pure (s1 s2 : SessionState) (sr : ℚ) (data : AudioData) :
    (estimateStep s1 sr data).1 = (estimateStep s2 sr data).1 ∧
    (estimateStep s1 sr data).2 = s1 ∧
    (estimateStep ((estimateStep s1 sr data).2) sr data).1 =
      (estimateStep s1 sr data).1 :=
  ⟨rfl, rfl, rfl⟩

/-- Any slider output is an integer on the 1-Hz grid between 50 and 300,
provided the supplied default already is one. -/
lemma sidebarRun_grid (session : Option ℚ) (choice : Option ℕ)
    (hs : ∀ t, session = some t → ∃ n : ℤ, t = (n : ℚ) ∧ 50 ≤ n ∧ n ≤ 300) :
    ∃ n : ℤ, sidebarRun session choice = (n : ℚ) ∧ 50 ≤ n ∧ n ≤ 300 := by
  cases choice with
  | some k =>
    refine ⟨50 + (min k 250 : ℕ), ?_, ?_, ?_⟩
    · unfold sidebarRun sliderValue
      push_cast
      ring
    · omega
    · omega
  | none =>
    cases session with
    | none =>
      exact ⟨165, rfl, by omega, by omega⟩
    | some t =>
      obtain ⟨n, hn, h1, h2⟩ := hs t rfl
      exact ⟨n, hn, h1, h2⟩

/-- The stored session threshold, when present, is an integer on the 1-Hz
grid between 50 and 300. -/
lemma sessionAfter_grid (cs : List (Option ℕ)) :
    ∀ t, sessionAfter cs = some t → ∃ n : ℤ, t = (n : ℚ) ∧ 50 ≤ n ∧ n ≤ 300 := by
  suffices h : ∀ (s : Option ℚ),
      (∀ t, s = some t → ∃ n : ℤ, t = (n : ℚ) ∧ 50 ≤ n ∧ n ≤ 300) →
      ∀ t, cs.foldl (fun s c => some (sidebarRun s c)) s = some t →
        ∃ n : ℤ, t = (n : ℚ) ∧ 50 ≤ n ∧ n ≤ 300 by
    exact h none (by intro t ht; cases ht)
  induction cs with
  | nil =>
    intro s hs t ht
    exact hs t ht
  | cons c rest ih =>
    intro s hs t ht
    refine ih (some (sidebarRun s c)) ?_ t ht
    intro t1 ht1
    cases ht1
    exact sidebarRun_grid s c hs

/-- C9: at every classification the threshold read from the sidebar lies in
[50, 300], and in a fresh session with no user adjustment it equals 165. -/
theorem threshold_bounds_and_default (cs : List (Option ℕ)) (c : Option ℕ) :
    (50 ≤ sidebarRun (sessionAfter cs) c ∧ sidebarRun (sessionAfter cs) c ≤ 300) ∧
    sidebarRun (sessionAfter []) none = 165 := by
  obtain ⟨n, hn, h1, h2⟩ :=
    sidebarRun_grid (sessionAfter cs) c (sessionAfter_grid cs)
  refine ⟨⟨?_, ?_⟩, rfl⟩
  · rw [hn]
    exact_mod_cast h1
  · rw [hn]
    exact_mod_cast h2

/-- C10: the threshold actually compared against the mean pitch is always an
integer number of Hz (the slider steps in whole-Hz increments from integer
bounds), even though the spec describes Threshold as a floating-point value. -/
theorem threshold_always_integer (cs : List (Option ℕ)) (c : Option ℕ) :
    ∃ n : ℤ, sidebarRun (sessionAfter cs) c = (n : ℚ) ∧ 50 ≤ n ∧ n ≤ 300 :=
  sidebarRun_grid (sessionAfter cs) c (sessionAfter_grid cs)
